import Mathlib

/-!
Verification of the case-whisperer acquisition-and-extraction engine.

This file gives a shallow embedding, in Lean 4, of the core library code of
the repository (`app/lib/entities.py`, `app/lib/parsers.py`,
`app/lib/captcha.py`, `app/lib/ecourt_client.py`) and proves the testable
properties of its specification against that embedding.

Python strings are modelled by Lean `String` (a list of characters, so
`len`/indexing agree with Python's code-point semantics); Python `str.split`,
`str.replace`, `str.strip`, `in`, `str.upper` are re-implemented below with
the exact Python semantics needed.  Fallible constructors (`__post_init__`
raising `ValueError`) are modelled with `Except String`.  Stateful retry
loops are modelled as fuel-style recursions over an oracle describing the
outcome of each attempt.
-/

namespace ECourt

/-! ## Python string primitives -/

/-- Python whitespace characters stripped by `str.strip()`. -/
def isPySpace (c : Char) : Bool :=
  c = ' ' || c = '\t' || c = '\n' || c = '\r' || c = Char.ofNat 11 || c = Char.ofNat 12

/-- Python `str.strip()`. -/
def pyStrip (s : String) : String :=
  ⟨((s.data.dropWhile isPySpace).reverse.dropWhile isPySpace).reverse⟩

/-- Python `str.upper()` (ASCII, which is all this repository feeds it). -/
def pyUpper (s : String) : String := ⟨s.data.map Char.toUpper⟩

/-- Fuel-driven worker for `str.split(sep)` with non-empty `sep`.
Each step consumes at least one character, so fuel = input length suffices;
structural recursion on the fuel keeps the function kernel-reducible. -/
def splitFuel (sep : List Char) : Nat → List Char → List (List Char)
  | _, [] => [[]]
  | 0, l => [l]
  | fuel + 1, x :: xs =>
    if sep.isPrefixOf (x :: xs) then
      [] :: splitFuel sep fuel (List.drop (sep.length - 1) xs)
    else
      match splitFuel sep fuel xs with
      | [] => [[x]]
      | h :: t => (x :: h) :: t

/-- Python `s.split(sep)` for a non-empty separator (Python raises on an
empty separator; the repository never uses one). -/
def pySplit (s sep : String) : List String :=
  if sep.data.isEmpty then [s]
  else (splitFuel sep.data s.data.length s.data).map (fun l => ⟨l⟩)

/-- Concatenate pieces with a separator between consecutive pieces. -/
def joinSepL (sep : List Char) : List (List Char) → List Char
  | [] => []
  | [x] => x
  | x :: y :: rest => x ++ sep ++ joinSepL sep (y :: rest)

/-- Python `s.split(sep, 1)`: split only at the first occurrence. -/
def pySplit1 (s sep : String) : List String :=
  match pySplit s sep with
  | [] => [s]
  | [x] => [x]
  | x :: rest => [x, ⟨joinSepL sep.data (rest.map String.data)⟩]

/-- Fuel-driven worker for `str.replace(pat, repl)` with non-empty `pat`. -/
def replaceFuel (pat repl : List Char) : Nat → List Char → List Char
  | _, [] => []
  | 0, l => l
  | fuel + 1, x :: xs =>
    if pat.isPrefixOf (x :: xs) then
      repl ++ replaceFuel pat repl fuel (List.drop (pat.length - 1) xs)
    else
      x :: replaceFuel pat repl fuel xs

/-- Python `s.replace(pat, repl)` (left-to-right, non-overlapping). -/
def pyReplace (s pat repl : String) : String :=
  if pat.data.isEmpty then s
  else ⟨replaceFuel pat.data repl.data s.data.length s.data⟩

/-- Substring test on character lists. -/
def listContainsSub (pat : List Char) : List Char → Bool
  | [] => pat.isEmpty
  | x :: xs => pat.isPrefixOf (x :: xs) || listContainsSub pat xs

/-- Python `pat in s`. -/
def pyContains (s pat : String) : Bool := listContainsSub pat.data s.data

/-- Python `s[0:n]`. -/
def pyTake (s : String) (n : Nat) : String := ⟨s.data.take n⟩

/-- Python `str.replace("-", "")`, used to clean CNR numbers. -/
def stripHyphens (s : String) : String := ⟨s.data.filter (fun c => c ≠ '-')⟩

/-! ## Data model (`app/lib/entities.py`) -/

/-- A calendar date as produced by `datetime.strptime(...).date()`. -/
structure PDate where
  year : Nat
  month : Nat
  day : Nat
deriving DecidableEq

/-- The `Party` dataclass. -/
structure Party where
  name : String
  advocate : Option String := none
deriving DecidableEq

/-- The `Hearing` dataclass. -/
structure Hearing where
  cause_list_type : Option String := none
  judge : Option String := none
  date : Option String := none
  next_date : Option String := none
  purpose : Option String := none
  court_no : Option String := none
  srno : Option String := none
deriving DecidableEq

/-- The `Order` dataclass (court order / judgment). -/
structure CourtOrder where
  judge : Option String := none
  date : Option String := none
  filename : Option String := none
deriving DecidableEq

/-- The `Objection` dataclass. -/
structure Objection where
  scrutiny_date : Option String := none
  objection : Option String := none
  compliance_date : Option String := none
  receipt_date : Option String := none
deriving DecidableEq

/-- The `FIR` dataclass. -/
structure FIR where
  state : Option String := none
  district : Option String := none
  police_station : Option String := none
  number : Option String := none
  year : Option String := none
deriving DecidableEq

/-- The fields of the `Case` dataclass, exactly as passed to the
constructor (before `__post_init__` runs). -/
structure CaseData where
  case_type : String
  registration_number : String
  cnr_number : String
  filing_number : Option String := none
  registration_date : Option PDate := none
  first_hearing_date : Option PDate := none
  decision_date : Option PDate := none
  case_status : Option String := none
  nature_of_disposal : Option String := none
  coram : Option String := none
  bench : Option String := none
  state : Option String := none
  district : Option String := none
  judicial : Option String := none
  petitioners : Option (List Party) := none
  respondents : Option (List Party) := none
  orders : Option (List CourtOrder) := none
  case_number : Option String := none
  hearings : Option (List Hearing) := none
  category : Option String := none
  sub_category : Option String := none
  objections : Option (List Objection) := none
  not_before_me : Option String := none
  filing_date : Option PDate := none
  fir : Option FIR := none
  token : Option String := none
  status : Option String := none
  next_hearing_date : Option PDate := none
deriving DecidableEq

/-- Model of `if self.cnr_number: self.cnr_number = self.cnr_number.replace("-", "")`:
the hyphen strip is guarded by Python truthiness of the string. -/
def cleanCnr (s : String) : String := if s ≠ "" then stripHyphens s else s

/-- Model of `Case.__post_init__`: strips hyphens from a truthy `cnr_number`,
rejects any CNR whose length is not exactly 16, defaults the `None` list
fields to empty lists, and normalizes the `""` / `"--"` sentinel values of
`not_before_me` / `nature_of_disposal`.  The trailing case-number year
check in the source is a no-op: both of its failure modes are swallowed by
`except (ValueError, AssertionError): pass`. -/
def Case.postInit (d : CaseData) : Except String CaseData :=
  if (cleanCnr d.cnr_number).length ≠ 16 then
    .error ("Invalid CNR Number length: " ++ toString (cleanCnr d.cnr_number).length)
  else
    .ok { d with
      cnr_number := cleanCnr d.cnr_number
      petitioners := some (d.petitioners.getD [])
      respondents := some (d.respondents.getD [])
      hearings := some (d.hearings.getD [])
      orders := some (d.orders.getD [])
      objections := some (d.objections.getD [])
      not_before_me := if d.not_before_me = some "" then none else d.not_before_me
      nature_of_disposal :=
        if d.nature_of_disposal = some "--" then none else d.nature_of_disposal }

/-- The `Court` dataclass after successful construction. -/
structure Court where
  state_code : String
  district_code : String
  court_code : Option String
  state_name : Option String := none
  name : Option String := none
deriving DecidableEq

/-- Model of `Court.__ALL_COURTS__`: the fixed whitelist of valid
(state_code, court_code) combinations. -/
def Court.ALL_COURTS : List (String × Option String) :=
  [("1", none), ("1", some "2"), ("1", some "3"), ("1", some "4"), ("1", some "5"),
   ("1", some "6"), ("2", none), ("3", none), ("3", some "2"), ("3", some "3"),
   ("4", none), ("5", none), ("6", none), ("6", some "2"), ("6", some "3"),
   ("6", some "4"), ("7", none), ("8", none), ("9", none), ("9", some "2"),
   ("10", none), ("10", some "2"), ("11", none), ("12", none), ("12", some "2"),
   ("13", none), ("13", some "2"), ("15", none), ("16", none), ("16", some "2"),
   ("16", some "3"), ("16", some "4"), ("17", none), ("18", none), ("20", none),
   ("21", none), ("24", none), ("25", none), ("29", none)]

/-- Python truthiness of an optional string (`None` and `""` are falsy). -/
def truthyOptStr : Option String → Bool
  | none => false
  | some s => s ≠ ""

/-- Model of `lcc = None if self.court_code == "1" else self.court_code`:
normalization of the court code for the whitelist lookup. -/
def normCC (cc : Option String) : Option String := if cc = some "1" then none else cc

/-- Model of `Court(...)` construction including `__post_init__`: a `None`
district code defaults to `"1"`; a court code of `"1"` is normalized to
absent for the whitelist lookup; a pair outside `Court.__ALL_COURTS__`
raises `ValueError`. -/
def mkCourt (state_code : String) (district_code : Option String := some "1")
    (court_code : Option String := none) : Except String Court :=
  if (state_code, normCC court_code) ∈ Court.ALL_COURTS then
    .ok { state_code := state_code, district_code := district_code.getD "1",
          court_code := court_code }
  else if truthyOptStr court_code then
    .error ("Invalid court: state_code=" ++ state_code ++ ", court_code="
      ++ (court_code.getD ""))
  else
    .error ("Invalid court: state_code=" ++ state_code)

/-! ## List parser (`parse_cases`, `app/lib/parsers.py`) -/

/-- Decidable equality for `Except`, used to evaluate parser results. -/
instance {ε α : Type _} [DecidableEq ε] [DecidableEq α] : DecidableEq (Except ε α)
  | .ok a, .ok b => decidable_of_iff (a = b) (by simp)
  | .ok _, .error _ => isFalse (by simp)
  | .error _, .ok _ => isFalse (by simp)
  | .error a, .error b => decidable_of_iff (a = b) (by simp)

/-- The body of the `for record_block in raw_data.split("##")` loop of
`parse_cases`: `none` models both `continue` paths (fewer than 8 fields,
fewer than 3 slash-separated parts in field 1) and the
`except (ValueError, IndexError)` handler that skips a record whose `Case`
construction raises (the only raising step, since field indexing is guarded
by the length check). -/
def parseRecord (block : String) : Option CaseData :=
  let record_fields := pySplit block "~"
  if record_fields.length < 8 then none
  else
    let case_parts := pySplit (record_fields.getD 1 "") "/"
    if 3 ≤ case_parts.length then
      let parties_text := pyStrip (pyReplace (record_fields.getD 2 "") "<br/>" "")
      let pr :=
        if pyContains parties_text "Versus" then
          match pySplit1 parties_text "Versus" with
          | [p, r] => (pyStrip p, pyStrip r)
          | _ => (pyStrip parties_text, "Unknown")
        else (parties_text, "Unknown")
      match Case.postInit
        { case_type := case_parts.getD 0 ""
          registration_number := case_parts.getD 1 "" ++ "/" ++ case_parts.getD 2 ""
          cnr_number := pyStrip (record_fields.getD 3 "")
          petitioners := some [{ name := pr.1 }]
          respondents := some [{ name := pr.2 }]
          token := some (record_fields.getD 7 "")
          case_number :=
            if record_fields.getD 0 "" ≠ "" then some (record_fields.getD 0 "")
            else none } with
      | .ok c => some c
      | .error _ => none
    else none

/-- The two payload-level exceptions `parse_cases` can raise. -/
inductive ListParseFailure where
  | valueError (msg : String)
  | captchaError (msg : String)
deriving DecidableEq

/-- Model of `parse_cases`: an empty payload yields nothing; an `"ERROR"` /
`"INVALID CAPTCHA"` marker in the uppercased first 15 characters raises;
otherwise the `"##"`-separated record blocks are parsed one by one,
skipping the ones `parseRecord` rejects. -/
def parse_cases (raw_data : String) : Except ListParseFailure (List CaseData) :=
  if raw_data = "" then .ok []
  else if pyContains (pyUpper (pyTake raw_data 15)) "ERROR" then
    .error (.valueError "Got invalid result")
  else if pyContains (pyUpper (pyTake raw_data 15)) "INVALID CAPTCHA" then
    .error (.captchaError "Invalid captcha")
  else
    .ok ((pySplit raw_data "##").filterMap parseRecord)

/-- The list payload named by the specification. -/
def specListPayload : String :=
  "CT/0020/2020/1~1234/2020/20~Alice Versus Bob~AB010020202020~x~x~x~TOKEN123"

/-- The same payload with the CNR field widened to 16 characters. -/
def specListPayload16 : String :=
  "CT/0020/2020/1~1234/2020/20~Alice Versus Bob~ABCD010020202020~x~x~x~TOKEN123"

/-- The single `Case` the 16-character-CNR payload parses to. -/
def specListCase16 : CaseData :=
  { case_type := "1234", registration_number := "2020/20",
    cnr_number := "ABCD010020202020", petitioners := some [{ name := "Alice" }],
    respondents := some [{ name := "Bob" }], orders := some [],
    case_number := some "CT/0020/2020/1", hearings := some [],
    objections := some [], token := some "TOKEN123" }

/-! ## Retrying gateway (`apimethod`, `app/lib/ecourt_client.py`)

The decorator's `while attempts > 0` loop is modelled as a recursion over
the remaining-attempts counter, driven by an oracle giving the outcome of
the i-th attempt (0-based).  An attempt's outcome is either a decoded
response body, or one of the failure kinds caught by the loop's two
`except` clauses — `CaptchaError` (raised by `Captcha.solve` inside the
payload builder, or by the `params['captcha'] is None` check), `ValueError`
(the `"ERROR"` / `errormsg` checks), transport timeout / connection errors,
and `HTTPError`; both handlers decrement the counter identically. -/

/-- The failure kinds the retry loop catches. -/
inductive GFailure where
  | captchaError (msg : String)
  | valueError (msg : String)
  | timeout (msg : String)
  | connectionError (msg : String)
  | httpError (msg : String)
deriving DecidableEq

/-- Terminal outcome of a gateway call: the decoded body of the successful
response, a `RetryException` once the budget is spent, or the degenerate
`max_attempts = 0` case in which the loop never runs and `response.text`
hits an unbound local. -/
inductive GatewayResult where
  | success (body : String)
  | retryExhausted (maxAttempts : Nat) (last : GFailure)
  | noAttempt
deriving DecidableEq

/-- Model of the `while attempts > 0` loop of `apimethod`: argument 1 is
the index of the current attempt, argument 2 the remaining-attempts
counter.  Returns the terminal outcome together with the number of
attempts made. -/
def apimethod_go (oracle : Nat → Except GFailure String) (maxA : Nat) :
    Nat → Nat → GatewayResult × Nat
  | i, 0 => (.noAttempt, i)
  | i, a + 1 =>
    match oracle i with
    | .ok body => (.success body, i + 1)
    | .error e =>
      if a = 0 then (.retryExhausted maxA e, i + 1)
      else apimethod_go oracle maxA (i + 1) a

/-- A gateway call with attempt budget `max_attempts`. -/
def apimethod_run (oracle : Nat → Except GFailure String) (max_attempts : Nat) :
    GatewayResult × Nat :=
  apimethod_go oracle max_attempts 0 max_attempts

/-- Default gateway budget, `Settings.ECOURT_MAX_RETRIES`. -/
def ECOURT_MAX_RETRIES : Nat := 3

/-- A transport failing transiently on exactly the first 2 attempts. -/
def transientOracle : Nat → Except GFailure String :=
  fun i => if i < 2 then .error (.timeout "timed out") else .ok "BODY"

/-! ## Claim C2 -/

/-- A payload builder whose CAPTCHA solver can never produce a token. -/
def captchaOracle : Nat → Except GFailure String :=
  fun _ => .error (.captchaError "No captcha solution available")

/-! ## CAPTCHA solver (`Captcha.solve`, `app/lib/captcha.py`)

The `while self.retry > 0` loop is modelled as a recursion over the retry
counter.  Each iteration fetches a fresh challenge image (the model's OCR
oracle is applied to the index of the fetch, so distinct iterations see
distinct challenges) and runs `decaptcha`, which succeeds exactly on a
5-character OCR result and raises `CaptchaError` otherwise; on
`CaptchaError` the loop decrements `self.retry` (the guard `if self.retry
> 0` always holds inside the loop, so its `else: raise` branch is dead
code) and loops.  When the counter reaches 0 the `while` exits and the
Python function falls off the end, returning `None`.  The model assumes
the OCR tooling is installed (no `"TEST1"` placeholder path) and that the
image endpoint returns HTTP 200.  On success the source resets
`self.retry` to 100 before returning. -/

/-- Model of the `while self.retry > 0` loop of `Captcha.solve`: argument 1
is the remaining retry budget, argument 2 the number of challenge images
fetched so far.  Returns the solved token (or `none` when the loop exits
with the budget spent) together with the total number of images fetched. -/
def solve_go (ocr : Nat → String) : Nat → Nat → Option String × Nat
  | 0, fetched => (none, fetched)
  | r + 1, fetched =>
    if (ocr fetched).length = 5 then (some (ocr fetched), fetched + 1)
    else solve_go ocr r (fetched + 1)

/-- Default CAPTCHA retry budget (`Captcha.__init__`'s `retry=100`). -/
def CAPTCHA_DEFAULT_RETRY : Nat := 100

/-- Model of `Captcha.solve()` with a given OCR behaviour and retry budget. -/
def captcha_solve (ocr : Nat → String) (retry : Nat) : Option String × Nat :=
  solve_go ocr retry 0

/-! ## Detail expansion (`ECourtClient.expand_case`) -/

/-- Model of `if case.case_number: new_case.case_number = case.case_number`:
the first preservation step of `expand_case`. -/
def mergeCaseNumber (orig parsed : CaseData) : CaseData :=
  if truthyOptStr orig.case_number then { parsed with case_number := orig.case_number }
  else parsed

/-- Model of the merge step of `ECourtClient.expand_case` on a successful
detail fetch: `new_case = parser.case`, then the caller's `case_number` and
`token` overwrite the parsed ones when they are truthy. -/
def expand_case_merge (orig parsed : CaseData) : CaseData :=
  if truthyOptStr orig.token then { mergeCaseNumber orig parsed with token := orig.token }
  else mergeCaseNumber orig parsed

/-- A caller's sparse list-parse `Case` carrying identifiers. -/
def origSparseCase : CaseData :=
  { case_type := "1234", registration_number := "2020/20",
    cnr_number := "ABCD010020202020", case_number := some "CT/0020/2020/1",
    token := some "TOKEN123" }

/-- A freshly parsed detail document carrying different identifiers. -/
def parsedDetailCase : CaseData :=
  { case_type := "5678", registration_number := "2021/9",
    cnr_number := "WXYZ010020202020", case_number := some "OTHER",
    token := some "STALE" }

/-! ## Date normalization (`parse_date`, `app/lib/parsers.py`)

`datetime.strptime` is modelled faithfully for the directives the nine
formats use.  CPython compiles a format into a regular expression —
`%Y ↦ \d\d\d\d`, `%m ↦ 1[0-2]|0[1-9]|[1-9]`,
`%d ↦ 3[01]|[12]\d|0[1-9]|[1-9]`, `%B ↦` the full month names,
whitespace `↦ \s+`, other characters matched literally — compiled with
`IGNORECASE`, matched with backtracking against the whole input, and the
captured fields are then handed to `datetime(...)`, which raises for
impossible calendar dates.  The matcher below enumerates each directive's
alternatives in the regex's alternation order and backtracks across
directives, which reproduces `re`'s leftmost-alternative semantics. -/

/-- Directives occurring in the nine formats of `parse_date`. -/
inductive FTok where
  | year4
  | monthNum
  | dayNum
  | monthName
  | ws
  | lit (c : Char)
deriving DecidableEq

/-- Captured fields of a `strptime` match, with CPython's defaults
(year 1900, month 1, day 1). -/
structure StMatch where
  y : Nat := 1900
  m : Nat := 1
  d : Nat := 1
deriving DecidableEq

/-- Numeric value of a decimal digit character. -/
def digitVal (c : Char) : Nat := c.toNat - 48

/-- Full English month names as matched by `%B`. -/
def monthNames : List (String × Nat) :=
  [("january", 1), ("february", 2), ("march", 3), ("april", 4), ("may", 5),
   ("june", 6), ("july", 7), ("august", 8), ("september", 9), ("october", 10),
   ("november", 11), ("december", 12)]

/-- Case-insensitive prefix test (the `strptime` regex is `IGNORECASE`). -/
def lowerPref (p l : List Char) : Bool :=
  (p.map Char.toLower).isPrefixOf (l.map Char.toLower)

/-- The candidate matches of one directive against the head of the input,
in the order the compiled regex tries them: for each candidate, the
captured numeric value (0 for non-capturing directives) and the remaining
input. -/
def tokAlts : FTok → List Char → List (Nat × List Char)
  | .year4, c1 :: c2 :: c3 :: c4 :: rest =>
    if c1.isDigit && c2.isDigit && c3.isDigit && c4.isDigit then
      [(1000 * digitVal c1 + 100 * digitVal c2 + 10 * digitVal c3 + digitVal c4, rest)]
    else []
  | .year4, _ => []
  | .monthNum, c1 :: c2 :: rest =>
    (if c1 = '1' && ('0' ≤ c2 && c2 ≤ '2') then [(10 + digitVal c2, rest)] else [])
    ++ (if c1 = '0' && ('1' ≤ c2 && c2 ≤ '9') then [(digitVal c2, rest)] else [])
    ++ (if '1' ≤ c1 && c1 ≤ '9' then [(digitVal c1, c2 :: rest)] else [])
  | .monthNum, [c1] => if '1' ≤ c1 && c1 ≤ '9' then [(digitVal c1, [])] else []
  | .monthNum, [] => []
  | .dayNum, c1 :: c2 :: rest =>
    (if c1 = '3' && (c2 = '0' || c2 = '1') then [(30 + digitVal c2, rest)] else [])
    ++ (if (c1 = '1' || c1 = '2') && c2.isDigit then
          [(10 * digitVal c1 + digitVal c2, rest)] else [])
    ++ (if c1 = '0' && ('1' ≤ c2 && c2 ≤ '9') then [(digitVal c2, rest)] else [])
    ++ (if '1' ≤ c1 && c1 ≤ '9' then [(digitVal c1, c2 :: rest)] else [])
  | .dayNum, [c1] => if '1' ≤ c1 && c1 ≤ '9' then [(digitVal c1, [])] else []
  | .dayNum, [] => []
  | .monthName, l =>
    monthNames.filterMap (fun p =>
      if lowerPref p.1.data l then some (p.2, l.drop p.1.data.length) else none)
  | .ws, l =>
    (List.range (l.takeWhile isPySpace).length).map
      (fun t => (0, l.drop ((l.takeWhile isPySpace).length - t)))
  | .lit c, c1 :: rest =>
    if c1.toLower = c.toLower then [(0, rest)] else []
  | .lit _, [] => []

/-- Record a directive's captured value. -/
def setTok : FTok → StMatch → Nat → StMatch
  | .year4, st, v => { st with y := v }
  | .monthNum, st, v => { st with m := v }
  | .dayNum, st, v => { st with d := v }
  | .monthName, st, v => { st with m := v }
  | .ws, st, _ => st
  | .lit _, st, _ => st

/-- Backtracking matcher: try each candidate of the head directive in
order, continuing with the rest of the format; the whole input must be
consumed (CPython raises `unconverted data remains` otherwise). -/
def matchToks : List FTok → List Char → StMatch → Option StMatch
  | [], l, st => if l.isEmpty then some st else none
  | t :: ts, l, st =>
    (tokAlts t l).findSome? (fun vr => matchToks ts vr.2 (setTok t st vr.1))

/-- Translate a format string into its directive list. -/
def fmtToks : List Char → List FTok
  | [] => []
  | '%' :: 'Y' :: rest => .year4 :: fmtToks rest
  | '%' :: 'm' :: rest => .monthNum :: fmtToks rest
  | '%' :: 'd' :: rest => .dayNum :: fmtToks rest
  | '%' :: 'B' :: rest => .monthName :: fmtToks rest
  | ' ' :: rest => .ws :: fmtToks rest
  | c :: rest => .lit c :: fmtToks rest

/-- Gregorian leap-year rule used by `datetime`. -/
def isLeap (y : Nat) : Bool := y % 4 = 0 && (y % 100 ≠ 0 || y % 400 = 0)

/-- Days in a month, as enforced by `datetime(...)` construction. -/
def daysInMonth (y m : Nat) : Nat :=
  if m = 2 then (if isLeap y then 29 else 28)
  else if m = 4 || m = 6 || m = 9 || m = 11 then 30 else 31

/-- Calendar validity enforced by `datetime(...)` (`MINYEAR = 1`). -/
def validDate (y m d : Nat) : Bool :=
  1 ≤ y && 1 ≤ m && m ≤ 12 && 1 ≤ d && d ≤ daysInMonth y m

/-- Model of `datetime.strptime(s, fmt).date()`: `none` models the
`ValueError` the loop in `parse_date` catches. -/
def strptimeDate (fmt s : String) : Option PDate :=
  match matchToks (fmtToks fmt.data) s.data {} with
  | none => none
  | some st => if validDate st.y st.m st.d then some ⟨st.y, st.m, st.d⟩ else none

/-- The ordered `date_formats` list of `parse_date`. -/
def date_formats : List String :=
  ["%Y%m%d", "%d-%m-%Y", "%d/%m/%Y", "%dth %B %Y", "%dst %B %Y", "%dnd %B %Y",
   "%drd %B %Y", "%d %B %Y", "%Y-%m-%d"]

/-- Model of `1990 < parsed_date.year < 2030`. -/
def yearOk (d : PDate) : Bool := decide (1990 < d.year) && decide (d.year < 2030)

/-- One iteration of the format loop of `parse_date`: the loop body
returns the parsed date iff `strptime` succeeds on this format and the
year is in range; a parse failure or an out-of-range year falls through to
the next format. -/
def tryFormat (s : String) (fmt : String) : Option PDate :=
  match strptimeDate fmt s with
  | some d => if yearOk d then some d else none
  | none => none

/-- Model of `parse_date`: `None`, empty, `"-"` and `"N/A"` inputs yield
`None`; otherwise the stripped input is tried against the ordered format
list; all-format failure (or out-of-range years throughout) logs and
yields `None` rather than raising. -/
def parse_date (s : Option String) : Option PDate :=
  match s with
  | none => none
  | some str =>
    if str = "" || pyStrip str = "-" || pyStrip str = "" || pyStrip str = "N/A" then
      none
    else
      date_formats.findSome? (tryFormat (pyStrip str))

/-! ## Detail parser (`CaseDetailsParser`, `app/lib/parsers.py`)

The HTML traversal of `_extract_case_details` and its sibling extractors
is BeautifulSoup-driven and is abstracted here: the extraction results
(label/value tables, party, hearing, objection and order lists) are
universally quantified inputs, so the theorems below hold for every
document whatever those extractors produce from it.  What is embedded
faithfully is everything downstream of extraction: the dictionary lookups,
`parse_date` normalization, `FIR` assembly, `Case` construction, and the
`except Exception` fallback of `_parse_case` that builds a minimal `Case`
with `cnr_number="Unknown"`. -/

/-- Python `str.lower()` (ASCII suffices for the markers checked). -/
def pyLower (s : String) : String := ⟨s.data.map Char.toLower⟩

/-- Python `dict.get(k)` on an extraction result (first binding wins;
actual dicts have unique keys). -/
def pyGet (d : List (String × String)) (k : String) : Option String :=
  (d.find? (fun p => p.1 = k)).map (fun p => p.2)

/-- Python `dict.get(k, default)`. -/
def pyGetD (d : List (String × String)) (k : String) (v : String) : String :=
  (pyGet d k).getD v

/-- The arguments of the primary `Case(...)` construction of
`CaseDetailsParser._parse_case`, assembled from the extraction results. -/
def detailsPrimaryCase
    (case_details fir_details case_status_d category_details : List (String × String))
    (petitioners respondents : List Party) (hearings : List Hearing)
    (objections : List Objection) (orders : List CourtOrder) : CaseData :=
    { case_type := pyGetD case_details "Case Type" ""
      filing_number := pyGet case_details "Filing Number"
      filing_date := parse_date (pyGet case_details "Filing Date")
      registration_number := pyGetD case_details "Registration Number" ""
      registration_date := parse_date (pyGet case_details "Registration Date")
      cnr_number := pyGetD case_details "CNR Number" ""
      first_hearing_date := parse_date (pyGet case_status_d "First Hearing Date")
      decision_date := parse_date (pyGet case_status_d "Decision Date")
      case_status :=
        match pyGet case_status_d "Case Status" with
        | some v => some v
        | none => pyGet case_status_d "Stage of Case"
      nature_of_disposal := pyGet case_status_d "Nature of Disposal"
      coram := pyGet case_status_d "Coram"
      bench := pyGet case_status_d "Bench"
      state := pyGet case_status_d "State"
      district := pyGet case_status_d "District"
      judicial := pyGet case_status_d "Judicial"
      not_before_me := pyGet case_status_d "Not Before Me"
      petitioners := some petitioners
      respondents := some respondents
      hearings := some hearings
      category := pyGet category_details "Category"
      sub_category := pyGet category_details "Sub Category"
      objections := some objections
      orders := some orders
      fir :=
        if fir_details.isEmpty then none
        else some
          { state := pyGet fir_details "State"
            district := pyGet fir_details "District"
            police_station := pyGet fir_details "Police Station"
            number := pyGet fir_details "FIR Number"
            year := pyGet fir_details "Year" } }

/-- The minimal fallback `Case` arguments of the `except` branch. -/
def detailsFallbackCase : CaseData :=
  { case_type := "Unknown", registration_number := "Unknown",
    cnr_number := "Unknown" }

/-- Model of `CaseDetailsParser._parse_case` downstream of extraction:
build the full `Case` from the extracted tables; if its construction
raises, fall back to the minimal `Case` with `cnr_number="Unknown"`
(whose construction is itself subject to CNR validation). -/
def parse_case_from_extracts
    (case_details fir_details case_status_d category_details : List (String × String))
    (petitioners respondents : List Party) (hearings : List Hearing)
    (objections : List Objection) (orders : List CourtOrder) :
    Except String CaseData :=
  match Case.postInit (detailsPrimaryCase case_details fir_details case_status_d
      category_details petitioners respondents hearings objections orders) with
  | .ok c => .ok c
  | .error _ => Case.postInit detailsFallbackCase

/-- Model of `CaseDetailsParser.__init__`: documents containing a
`"session expired"` marker are rejected up front; otherwise `_parse_case`
runs on whatever the extractors produce from the document. -/
def CaseDetailsParser_init (html : String)
    (case_details fir_details case_status_d category_details : List (String × String))
    (petitioners respondents : List Party) (hearings : List Hearing)
    (objections : List Objection) (orders : List CourtOrder) :
    Except String CaseData :=
  if pyContains (pyLower html) "session expired" then .error "Session expired"
  else parse_case_from_extracts case_details fir_details case_status_d
    category_details petitioners respondents hearings objections orders

/-! ## Change detector (`ECourtClient.calculate_case_hash`)

`calculate_case_hash(case_data)` drops the volatile keys `last_updated` /
`scraped_at`, serializes the rest with
`json.dumps(..., sort_keys=True, default=str)` and digests the UTF-8 bytes
with MD5.  The model below reproduces that pipeline exactly: a `PyVal`
type for the JSON-able Python values a record can hold (including `date`
objects, which `default=str` turns into their ISO string before they are
serialized as JSON strings), a character-exact `json.dumps` with Python's
default separators, sorted keys and `ensure_ascii` escaping, and a full
MD5 over the UTF-8 encoding.  The model was checked to agree with
CPython's `json.dumps` output and `hashlib.md5` digests on sample
records. -/

/-- Lexicographic code-point comparison of Python strings, as used by
`sorted()` / `sort_keys=True`. -/
def strLeB : List Char → List Char → Bool
  | [], _ => true
  | _ :: _, [] => false
  | a :: as, b :: bs =>
    if a.toNat < b.toNat then true
    else if b.toNat < a.toNat then false
    else strLeB as bs

/-- The key order of `sort_keys=True` as a relation on `String`. -/
def strLe (a b : String) : Prop := strLeB a.data b.data = true

instance : DecidableRel strLe :=
  fun a b => inferInstanceAs (Decidable (strLeB a.data b.data = true))

mutual
/-- The Python values a scraped record can hold: JSON natives plus `date`
objects (serialized through the `default=str` fallback). -/
inductive PyVal where
  | vNull
  | vBool (b : Bool)
  | vInt (n : Int)
  | vStr (s : String)
  | vDate (y m d : Nat)
  | vList (xs : PyList)
/-- A Python list of such values. -/
inductive PyList where
  | nil
  | cons (hd : PyVal) (tl : PyList)
end

/-- Lowercase hexadecimal digit. -/
def hexDigit (n : Nat) : Char := if n < 10 then Char.ofNat (48 + n) else Char.ofNat (87 + n)

/-- The `ensure_ascii` string escaping of `json.dumps`: short escapes for
the JSON control shorthands, `\uXXXX` (with surrogate pairs beyond the
BMP) for other controls and all non-ASCII characters. -/
def escChar (c : Char) : List Char :=
  if c = '"' then ['\\', '"']
  else if c = '\\' then ['\\', '\\']
  else if c = '\n' then ['\\', 'n']
  else if c = '\r' then ['\\', 'r']
  else if c = '\t' then ['\\', 't']
  else if c.toNat = 8 then ['\\', 'b']
  else if c.toNat = 12 then ['\\', 'f']
  else if c.toNat < 32 || c.toNat > 126 then
    if c.toNat < 65536 then
      ['\\', 'u', hexDigit (c.toNat / 4096 % 16), hexDigit (c.toNat / 256 % 16),
       hexDigit (c.toNat / 16 % 16), hexDigit (c.toNat % 16)]
    else
      ['\\', 'u', hexDigit ((55296 + (c.toNat - 65536) / 1024) / 4096 % 16),
       hexDigit ((55296 + (c.toNat - 65536) / 1024) / 256 % 16),
       hexDigit ((55296 + (c.toNat - 65536) / 1024) / 16 % 16),
       hexDigit ((55296 + (c.toNat - 65536) / 1024) % 16),
       '\\', 'u', hexDigit ((56320 + (c.toNat - 65536) % 1024) / 4096 % 16),
       hexDigit ((56320 + (c.toNat - 65536) % 1024) / 256 % 16),
       hexDigit ((56320 + (c.toNat - 65536) % 1024) / 16 % 16),
       hexDigit ((56320 + (c.toNat - 65536) % 1024) % 16)]
  else [c]

/-- A JSON string literal: quoted and escaped. -/
def dumpStrChars (s : String) : List Char :=
  '"' :: (s.data.map escChar).flatten ++ ['"']

/-- Decimal digits of a natural number. -/
def natChars (n : Nat) : List Char := Nat.toDigits 10 n

/-- Python `repr` of an integer, as emitted by `json.dumps`. -/
def intChars (n : Int) : List Char :=
  if n < 0 then '-' :: natChars n.natAbs else natChars n.toNat

/-- Zero-pad a decimal rendering to a given width. -/
def padNum (w n : Nat) : List Char :=
  List.replicate (w - (natChars n).length) '0' ++ natChars n

/-- Python `str(date(y, m, d))`: the ISO rendering `YYYY-MM-DD`. -/
def dateStr (y m d : Nat) : String :=
  ⟨padNum 4 y ++ '-' :: padNum 2 m ++ '-' :: padNum 2 d⟩

/-- The default `json.dumps` item separator `", "`. -/
def commaSp : List Char := [',', ' ']

/-- The default `json.dumps` key separator `": "`. -/
def colonSp : List Char := [':', ' ']

mutual
/-- Character-exact `json.dumps(v, default=str)` for one value. -/
def pyDumps : PyVal → List Char
  | .vNull => ['n', 'u', 'l', 'l']
  | .vBool true => ['t', 'r', 'u', 'e']
  | .vBool false => ['f', 'a', 'l', 's', 'e']
  | .vInt n => intChars n
  | .vStr s => dumpStrChars s
  | .vDate y m d => dumpStrChars (dateStr y m d)
  | .vList xs => '[' :: joinSepL commaSp (dumpArr xs) ++ [']']
/-- Serialize the elements of a Python list. -/
def dumpArr : PyList → List (List Char)
  | .nil => []
  | .cons x xs => pyDumps x :: dumpArr xs
end

/-- The character `"{"`. -/
def lbrace : Char := Char.ofNat 123

/-- The character `"}"`. -/
def rbrace : Char := Char.ofNat 125

/-- The keys of a record, in insertion order. -/
def keyList (r : List (String × PyVal)) : List String := r.map (fun p => p.1)

/-- The iteration order of `json.dumps(..., sort_keys=True)`. -/
def sortedKeys (r : List (String × PyVal)) : List String :=
  List.insertionSort strLe (keyList r)

/-- Dictionary lookup (records model Python dicts, whose keys are unique;
the first binding wins). -/
def lookupVal (r : List (String × PyVal)) (k : String) : PyVal :=
  match r.find? (fun p => p.1 = k) with
  | some p => p.2
  | none => .vNull

/-- One `"key": value` entry of the serialized dictionary. -/
def entryChars (r : List (String × PyVal)) (k : String) : List Char :=
  dumpStrChars k ++ colonSp ++ pyDumps (lookupVal r k)

/-- The volatile keys dropped before hashing. -/
def volatileFields : List String := ["last_updated", "scraped_at"]

/-- Model of the `filtered_data` dictionary comprehension. -/
def filteredData (r : List (String × PyVal)) : List (String × PyVal) :=
  r.filter (fun p => !(volatileFields.contains p.1))

/-- Model of `case_str = json.dumps(filtered_data, sort_keys=True,
default=str)`: the canonical serialization that is digested. -/
def case_str (r : List (String × PyVal)) : List Char :=
  lbrace :: joinSepL commaSp
    ((sortedKeys (filteredData r)).map (entryChars (filteredData r))) ++ [rbrace]

/-- Change the value stored at one key of a record. -/
def updateVal (r : List (String × PyVal)) (k : String) (v : PyVal) :
    List (String × PyVal) :=
  r.map (fun p => if p.1 = k then (p.1, v) else p)

/-- UTF-8 encoding of one character (`str.encode()`). -/
def utf8Char (c : Char) : List Nat :=
  if c.toNat < 128 then [c.toNat]
  else if c.toNat < 2048 then [192 + c.toNat / 64, 128 + c.toNat % 64]
  else if c.toNat < 65536 then
    [224 + c.toNat / 4096, 128 + c.toNat / 64 % 64, 128 + c.toNat % 64]
  else
    [240 + c.toNat / 262144, 128 + c.toNat / 4096 % 64, 128 + c.toNat / 64 % 64,
     128 + c.toNat % 64]

/-- UTF-8 encoding of a character sequence. -/
def utf8Bytes (l : List Char) : List Nat := (l.map utf8Char).flatten

/-- Rotate a 32-bit word left by `s` bits. -/
def rotl32 (x s : Nat) : Nat := ((x % 2 ^ (32 - s)) * 2 ^ s) + (x / 2 ^ (32 - s))

/-- The 64 MD5 sine-derived round constants. -/
def md5K : List Nat :=
  [0xd76aa478, 0xe8c7b756, 0x242070db, 0xc1bdceee,
   0xf57c0faf, 0x4787c62a, 0xa8304613, 0xfd469501,
   0x698098d8, 0x8b44f7af, 0xffff5bb1, 0x895cd7be,
   0x6b901122, 0xfd987193, 0xa679438e, 0x49b40821,
   0xf61e2562, 0xc040b340, 0x265e5a51, 0xe9b6c7aa,
   0xd62f105d, 0x02441453, 0xd8a1e681, 0xe7d3fbc8,
   0x21e1cde6, 0xc33707d6, 0xf4d50d87, 0x455a14ed,
   0xa9e3e905, 0xfcefa3f8, 0x676f02d9, 0x8d2a4c8a,
   0xfffa3942, 0x8771f681, 0x6d9d6122, 0xfde5380c,
   0xa4beea44, 0x4bdecfa9, 0xf6bb4b60, 0xbebfbc70,
   0x289b7ec6, 0xeaa127fa, 0xd4ef3085, 0x04881d05,
   0xd9d4d039, 0xe6db99e5, 0x1fa27cf8, 0xc4ac5665,
   0xf4292244, 0x432aff97, 0xab9423a7, 0xfc93a039,
   0x655b59c3, 0x8f0ccc92, 0xffeff47d, 0x85845dd1,
   0x6fa87e4f, 0xfe2ce6e0, 0xa3014314, 0x4e0811a1,
   0xf7537e82, 0xbd3af235, 0x2ad7d2bb, 0xeb86d391]

/-- The 64 MD5 per-round left-rotation amounts. -/
def md5S : List Nat :=
  [7, 12, 17, 22, 7, 12, 17, 22, 7, 12, 17, 22, 7, 12, 17, 22,
   5, 9, 14, 20, 5, 9, 14, 20, 5, 9, 14, 20, 5, 9, 14, 20,
   4, 11, 16, 23, 4, 11, 16, 23, 4, 11, 16, 23, 4, 11, 16, 23,
   6, 10, 15, 21, 6, 10, 15, 21, 6, 10, 15, 21, 6, 10, 15, 21]

/-- The MD5 round function for round `i`. -/
def md5F (i b c d : Nat) : Nat :=
  if i < 16 then Nat.lor (Nat.land b c) (Nat.land (2 ^ 32 - 1 - b) d)
  else if i < 32 then Nat.lor (Nat.land d b) (Nat.land (2 ^ 32 - 1 - d) c)
  else if i < 48 then Nat.xor b (Nat.xor c d)
  else Nat.xor c (Nat.lor b (2 ^ 32 - 1 - d))

/-- The MD5 message-word index for round `i`. -/
def md5G (i : Nat) : Nat :=
  if i < 16 then i
  else if i < 32 then (5 * i + 1) % 16
  else if i < 48 then (3 * i + 5) % 16
  else (7 * i) % 16

/-- One MD5 round on the state `(A, B, C, D)`. -/
def md5Round (M : Nat → Nat) (st : Nat × Nat × Nat × Nat) (i : Nat) :
    Nat × Nat × Nat × Nat :=
  ((st.2.2.2 : Nat),
   (st.2.1 + rotl32
      ((md5F i st.2.1 st.2.2.1 st.2.2.2 + st.1 + md5K.getD i 0 + M (md5G i)) % 2 ^ 32)
      (md5S.getD i 0)) % 2 ^ 32,
   st.2.1, st.2.2.1)

/-- The `j`-th little-endian 32-bit word of a 64-byte chunk. -/
def leWord (chunk : List Nat) (j : Nat) : Nat :=
  chunk.getD (4 * j) 0 + 256 * chunk.getD (4 * j + 1) 0
    + 65536 * chunk.getD (4 * j + 2) 0 + 16777216 * chunk.getD (4 * j + 3) 0

/-- Process one 64-byte chunk. -/
def md5Chunk (st : Nat × Nat × Nat × Nat) (chunk : List Nat) :
    Nat × Nat × Nat × Nat :=
  ((st.1 + ((List.range 64).foldl (md5Round (leWord chunk)) st).1) % 2 ^ 32,
   (st.2.1 + ((List.range 64).foldl (md5Round (leWord chunk)) st).2.1) % 2 ^ 32,
   (st.2.2.1 + ((List.range 64).foldl (md5Round (leWord chunk)) st).2.2.1) % 2 ^ 32,
   (st.2.2.2 + ((List.range 64).foldl (md5Round (leWord chunk)) st).2.2.2) % 2 ^ 32)

/-- The `n` little-endian bytes of a number. -/
def leBytes : Nat → Nat → List Nat
  | 0, _ => []
  | n + 1, v => v % 256 :: leBytes n (v / 256)

/-- MD5 padding: `0x80`, zeros to 56 mod 64, 64-bit little-endian length. -/
def md5Pad (msg : List Nat) : List Nat :=
  msg ++ [0x80] ++ List.replicate ((56 + 64 - (msg.length + 1) % 64) % 64) 0
    ++ leBytes 8 ((8 * msg.length) % 2 ^ 64)

/-- Split a byte sequence into 64-byte chunks (fuel-driven, structural). -/
def chunksFuel : Nat → List Nat → List (List Nat)
  | _, [] => []
  | 0, l => [l]
  | f + 1, l => l.take 64 :: chunksFuel f (l.drop 64)

/-- The lowercase-hex MD5 digest of a byte sequence
(`hashlib.md5(...).hexdigest()`); checked against `hashlib` on samples. -/
def md5hexBytes (msg : List Nat) : String :=
  ⟨(((fun r : Nat × Nat × Nat × Nat =>
      leBytes 4 r.1 ++ leBytes 4 r.2.1 ++ leBytes 4 r.2.2.1 ++ leBytes 4 r.2.2.2)
    ((chunksFuel (md5Pad msg).length (md5Pad msg)).foldl md5Chunk
      (0x67452301, 0xefcdab89, 0x98badcfe, 0x10325476))).map
    (fun b => [hexDigit (b / 16), hexDigit (b % 16)])).flatten⟩

/-- Model of `ECourtClient.calculate_case_hash`: drop the volatile fields,
serialize canonically, digest with MD5. -/
def calculate_case_hash (r : List (String × PyVal)) : String :=
  md5hexBytes (utf8Bytes (case_str r))

/-- The serialized-and-separated prefix entries before a split point. -/
def joinPre (sep : List Char) (A : List (List Char)) : List Char :=
  (A.map (fun x => x ++ sep)).flatten

/-- The separated tail entries after a split point. -/
def sepTail (sep : List Char) : List (List Char) → List Char
  | [] => []
  | x :: xs => sep ++ joinSepL sep (x :: xs)

/-- A record holding a `date` value in a non-volatile field. -/
def hashRecordDate : List (String × PyVal) := [("filing_date", .vDate 2020 1 1)]

/-- The same record with the field changed to the date's ISO string. -/
def hashRecordStr : List (String × PyVal) := [("filing_date", .vStr "2020-01-01")]

/-! ## Theorems -/

/-- The truthiness guard is immaterial: stripping hyphens from `""` is `""`. -/
theorem cleanCnr_eq (s : String) : cleanCnr s = stripHyphens s := by
  unfold cleanCnr
  by_cases hz : s = ""
  · rw [if_neg (by simp [hz]), hz]; rfl
  · rw [if_pos (by simp [hz])]

/-! ## Helper lemmas for construction-time validation -/

/-- Lemma: `Case.postInit` succeeds exactly on hyphen-stripped length 16, and then
stores the hyphen-stripped CNR. -/
theorem postInit_ok_iff (d : CaseData) :
    (stripHyphens d.cnr_number).length = 16 →
      ∃ c, Case.postInit d = .ok c ∧ c.cnr_number = stripHyphens d.cnr_number := by
  intro h
  unfold Case.postInit
  rw [cleanCnr_eq, if_neg (by simp [h])]
  exact ⟨_, rfl, rfl⟩

/-- Lemma: `Case.postInit` fails whenever the hyphen-stripped CNR length is not 16. -/
theorem postInit_error (d : CaseData) :
    (stripHyphens d.cnr_number).length ≠ 16 →
      ∃ msg, Case.postInit d = .error msg := by
  intro h
  unfold Case.postInit
  rw [cleanCnr_eq, if_pos h]
  exact ⟨_, rfl⟩

/-! ## Claim C5 -/

/-- C5: for every candidate CNR string (and arbitrary other constructor
arguments), `Case` construction succeeds iff the hyphen-stripped CNR has
length exactly 16; on success the stored `cnr_number` is the
hyphen-stripped string, and otherwise construction raises `ValueError`. -/
theorem case_cnr_validation (d : CaseData) :
    ((stripHyphens d.cnr_number).length = 16 →
      ∃ c, Case.postInit d = .ok c ∧ c.cnr_number = stripHyphens d.cnr_number)
    ∧ ((stripHyphens d.cnr_number).length ≠ 16 →
      ∃ msg, Case.postInit d = .error msg) :=
  ⟨postInit_ok_iff d, postInit_error d⟩

/-- Witness for C5 at concrete inputs: a 17-character hyphenated CNR is
accepted with the hyphen removed, and a 7-character CNR is rejected. -/
theorem case_cnr_validation_witness :
    (∃ c, Case.postInit
        { case_type := "t", registration_number := "r",
          cnr_number := "AB-CD0102030405EF" } = .ok c
      ∧ c.cnr_number = stripHyphens "AB-CD0102030405EF")
    ∧ (∃ msg, Case.postInit
        { case_type := "t", registration_number := "r",
          cnr_number := "Unknown" } = .error msg) :=
  ⟨(case_cnr_validation _).1 (by decide), (case_cnr_validation _).2 (by decide)⟩

/-! ## Claim C6 -/

/-- C6: `Court` construction succeeds exactly when the
(state_code, court_code) pair, with court code `"1"` normalized to absent,
is in the fixed whitelist; on success the stored codes are exactly the ones
supplied (never coerced), and otherwise construction raises at
construction time. -/
theorem court_whitelist_validation (sc : String) (dc cc : Option String) :
    ((sc, normCC cc) ∈ Court.ALL_COURTS →
      ∃ c, mkCourt sc dc cc = .ok c ∧ c.state_code = sc ∧ c.court_code = cc
        ∧ c.district_code = dc.getD "1")
    ∧ ((sc, normCC cc) ∉ Court.ALL_COURTS →
      ∃ msg, mkCourt sc dc cc = .error msg) := by
  constructor
  · intro h
    unfold mkCourt
    rw [if_pos h]
    exact ⟨_, rfl, rfl, rfl, rfl⟩
  · intro h
    unfold mkCourt
    rw [if_neg h]
    by_cases ht : truthyOptStr cc
    · rw [if_pos ht]; exact ⟨_, rfl⟩
    · rw [if_neg ht]; exact ⟨_, rfl⟩

/-- Witness for C6 at concrete inputs: state 3 court 2 (whitelisted, court
code preserved verbatim), state 3 court 3 with an explicit district, and the
rejected pair state 2 court 5. -/
theorem court_whitelist_validation_witness :
    (∃ c, mkCourt "3" (some "1") (some "2") = .ok c ∧ c.state_code = "3"
      ∧ c.court_code = some "2" ∧ c.district_code = (some "1").getD "1")
    ∧ (∃ msg, mkCourt "2" (some "1") (some "5") = .error msg) :=
  ⟨(court_whitelist_validation "3" (some "1") (some "2")).1 (by decide),
   (court_whitelist_validation "2" (some "1") (some "5")).2 (by decide)⟩

/-! ## Claim C1 -/

/-- C1, counterexample: on the exact payload of the specification,
`parse_cases` yields no `Case` at all (the claimed `cnr_number`
`"AB010020202020"` has only 14 characters, so `Case.__post_init__` raises
and the record is skipped), contradicting "yields exactly one Case". -/
theorem parse_cases_spec_payload_yields_nothing :
    parse_cases specListPayload = .ok [] ∧ ("AB010020202020" : String).length = 14 := by
  decide

/-- C1 (amended: the example CNR must be 16 characters long, here
`"ABCD010020202020"`, for the record to survive CNR validation): the list
parser yields exactly one `Case` with the claimed field values; every
record block with exactly 5 fields yields nothing; and any payload free of
the payload-level error markers parses without raising. -/
theorem parse_cases_list_example :
    (∃ c, parse_cases specListPayload16 = .ok [c]
      ∧ c.case_type = "1234" ∧ c.registration_number = "2020/20"
      ∧ c.petitioners = some [{ name := "Alice" }]
      ∧ c.respondents = some [{ name := "Bob" }]
      ∧ c.cnr_number = "ABCD010020202020" ∧ c.token = some "TOKEN123")
    ∧ (∀ block, (pySplit block "~").length = 5 → parseRecord block = none)
    ∧ (∀ raw, raw ≠ "" →
        pyContains (pyUpper (pyTake raw 15)) "ERROR" = false →
        pyContains (pyUpper (pyTake raw 15)) "INVALID CAPTCHA" = false →
        ∃ cs, parse_cases raw = .ok cs) := by
  refine ⟨⟨specListCase16, by decide, rfl, rfl, rfl, rfl, rfl, rfl⟩, ?_, ?_⟩
  · intro block h
    simp only [parseRecord, h]
    rw [if_pos (show (5 : Nat) < 8 by norm_num)]
  · intro raw h1 h2 h3
    simp only [parse_cases, h1, h2, h3]
    exact ⟨_, rfl⟩

/-- Witness for C1's universally quantified parts at a concrete input: a
5-field record block is skipped. -/
theorem parse_cases_list_example_witness :
    (pySplit "a~b~c~d~e" "~").length = 5 ∧ parseRecord "a~b~c~d~e" = none :=
  ⟨by decide, parse_cases_list_example.2.1 "a~b~c~d~e" (by decide)⟩

/-- Lemma: if every attempt before index `k` fails and attempt `k`
succeeds, the loop (entered at index `i` with a positive counter large
enough to reach `k`) returns the body after `k + 1` attempts. -/
theorem apimethod_go_success (oracle : Nat → Except GFailure String) (maxA k : Nat)
    (body : String) (hsucc : oracle k = .ok body) :
    ∀ a i, i ≤ k → k < i + a →
      (∀ j, i ≤ j → j < k → ∃ e, oracle j = .error e) →
      apimethod_go oracle maxA i a = (.success body, k + 1) := by
  intro a
  induction a with
  | zero => intro i hik hlt _; omega
  | succ a ih =>
    intro i hik hlt hf
    rcases Nat.eq_or_lt_of_le hik with heq | hlt2
    · subst heq
      simp [apimethod_go, hsucc]
    · obtain ⟨e, he⟩ := hf i le_rfl hlt2
      have ha : a ≠ 0 := by omega
      simp only [apimethod_go, he]
      rw [if_neg ha]
      exact ih (i + 1) (by omega) (by omega) (fun j h1 h2 => hf j (by omega) h2)

/-- Lemma: if every attempt the budget allows fails, the loop raises
`RetryException` carrying the last attempt's error, after consuming the
whole budget. -/
theorem apimethod_go_exhaust (oracle : Nat → Except GFailure String) (maxA : Nat) :
    ∀ a i, 0 < a → (∀ j, i ≤ j → j < i + a → ∃ e, oracle j = .error e) →
      ∃ e, oracle (i + a - 1) = .error e ∧
        apimethod_go oracle maxA i a = (.retryExhausted maxA e, i + a) := by
  intro a
  induction a with
  | zero => intro i h; omega
  | succ a ih =>
    intro i _ hf
    obtain ⟨e, he⟩ := hf i le_rfl (by omega)
    by_cases ha : a = 0
    · subst ha
      refine ⟨e, by simpa using he, ?_⟩
      simp [apimethod_go, he]
    · obtain ⟨e', he', hgo⟩ :=
        ih (i + 1) (by omega) (fun j h1 h2 => hf j (by omega) (by omega))
      refine ⟨e', ?_, ?_⟩
      · rw [show i + (a + 1) - 1 = i + 1 + a - 1 by omega]
        exact he'
      · simp only [apimethod_go, he]
        rw [if_neg ha, hgo, show i + 1 + a = i + (a + 1) by omega]

/-! ## Claim C4 -/

/-- Claim C4: with attempt budget `b ≥ 1` against a transport that fails
transiently on exactly the first `k` attempts and then succeeds, the
gateway call succeeds after exactly `k + 1` attempts and returns the
decoded body when `b > k`, and raises `RetryException` carrying the last
error when `b ≤ k`. -/
theorem gateway_retry_budget (oracle : Nat → Except GFailure String) (k b : Nat)
    (body : String) (hb : 1 ≤ b)
    (hfail : ∀ i, i < k → ∃ e, oracle i = .error e)
    (hsucc : oracle k = .ok body) :
    (k < b → apimethod_run oracle b = (.success body, k + 1))
    ∧ (b ≤ k → ∃ e, oracle (b - 1) = .error e
        ∧ apimethod_run oracle b = (.retryExhausted b e, b)) := by
  constructor
  · intro hkb
    exact apimethod_go_success oracle b k body hsucc b 0 (by omega) (by omega)
      (fun j _ h2 => hfail j h2)
  · intro hbk
    obtain ⟨e, he, hgo⟩ := apimethod_go_exhaust oracle b b 0 (by omega)
      (fun j _ h2 => hfail j (by omega))
    exact ⟨e, by simpa using he, by simpa using hgo⟩

/-- Witness for C4 with `k = 2`: budget 3 succeeds on the third attempt,
budget 2 raises `RetryException`. -/
theorem gateway_retry_budget_witness :
    apimethod_run transientOracle 3 = (.success "BODY", 3)
    ∧ ∃ e, transientOracle 1 = .error e
        ∧ apimethod_run transientOracle 2 = (.retryExhausted 2 e, 2) :=
  ⟨(gateway_retry_budget transientOracle 2 3 "BODY" (by norm_num)
      (fun i hi => ⟨.timeout "timed out", by simp [transientOracle, hi]⟩)
      (by decide)).1 (by norm_num),
   (gateway_retry_budget transientOracle 2 2 "BODY" (by norm_num)
      (fun i hi => ⟨.timeout "timed out", by simp [transientOracle, hi]⟩)
      (by decide)).2 (by norm_num)⟩

/-- Claim C2, counterexample: with the default budget of 3, a gateway call
whose CAPTCHA solver can never produce a token makes all 3 attempts and
ends in `RetryException` — the captcha failure is retried and consumes the
remaining-attempts counter, it does not abort the call immediately. -/
theorem gateway_captcha_not_aborted_counterexample :
    apimethod_run captchaOracle ECOURT_MAX_RETRIES =
      (.retryExhausted 3 (.captchaError "No captcha solution available"), 3) := by
  decide

/-- Claim C2 (amended: a CAPTCHA failure is caught by the same `except`
clause as the transient failures, so it decrements the remaining-attempts
counter and is retried; once the budget `b ≥ 1` is exhausted the call
raises `RetryException` carrying the captcha failure). -/
theorem gateway_captcha_retried (oracle : Nat → Except GFailure String)
    (m : String) (b : Nat) (hb : 1 ≤ b)
    (hc : ∀ i, oracle i = .error (.captchaError m)) :
    apimethod_run oracle b = (.retryExhausted b (.captchaError m), b) := by
  obtain ⟨e, he, hgo⟩ := apimethod_go_exhaust oracle b b 0 (by omega)
    (fun j _ _ => ⟨_, hc j⟩)
  rw [hc (0 + b - 1)] at he
  injection he with he
  rw [← he] at hgo
  simpa using hgo

/-- Witness for C2's amended theorem at budget 2. -/
theorem gateway_captcha_retried_witness :
    apimethod_run captchaOracle 2 =
      (.retryExhausted 2 (.captchaError "No captcha solution available"), 2) :=
  gateway_captcha_retried captchaOracle "No captcha solution available" 2
    (by norm_num) (fun _ => rfl)

/-! ## Claim C3 -/

/-- Claim C3: with an OCR that yields a 5-character string on the first
challenge, `solve()` returns it on the first attempt (one image fetched).
With an OCR that always yields 4 characters, all 100 attempts of the
default budget are consumed, each fetching a fresh challenge image — but
`solve()` then returns `None` instead of raising `CaptchaError`: the
`raise CaptchaError("Couldn't solve captcha after retries")` branch in the
source is unreachable, which is the code bug this claim exposes. -/
theorem captcha_solve_behavior :
    (∀ (ocr : Nat → String) (r : Nat), 1 ≤ r → (ocr 0).length = 5 →
      captcha_solve ocr r = (some (ocr 0), 1))
    ∧ captcha_solve (fun _ => "abcd") CAPTCHA_DEFAULT_RETRY = (none, 100) := by
  constructor
  · intro ocr r hr h5
    match r, hr with
    | r + 1, _ => simp [captcha_solve, solve_go, h5]
  · decide

/-- Witness for C3's first part: a stub OCR returning `"abc12"` solves on
the first attempt. -/
theorem captcha_solve_behavior_witness :
    captcha_solve (fun _ => "abc12") CAPTCHA_DEFAULT_RETRY = (some "abc12", 1) :=
  captcha_solve_behavior.1 (fun _ => "abc12") CAPTCHA_DEFAULT_RETRY
    (by decide) (by decide)

/-! ## Claim C8 -/

/-- Claim C8: the `Case` returned by a successful detail expansion keeps
the caller's original `case_number` and `token` whenever the caller's
`Case` had them set (a set optional string field in this codebase is a
truthy one, i.e. present and non-empty — `parse_cases` itself normalizes
`""` to `None`), regardless of what the freshly parsed detail document
contains for those fields. -/
theorem expand_case_preserves_identifiers (orig parsed : CaseData) :
    (∀ s, orig.case_number = some s → s ≠ "" →
      (expand_case_merge orig parsed).case_number = some s)
    ∧ (∀ s, orig.token = some s → s ≠ "" →
      (expand_case_merge orig parsed).token = some s) := by
  constructor
  · intro s hs hne
    have ht : truthyOptStr orig.case_number = true := by
      rw [hs]; simpa [truthyOptStr] using hne
    have hm : (mergeCaseNumber orig parsed).case_number = some s := by
      unfold mergeCaseNumber
      rw [if_pos ht]
      exact hs
    unfold expand_case_merge
    by_cases hk : truthyOptStr orig.token
    · rw [if_pos hk]; exact hm
    · rw [if_neg hk]; exact hm
  · intro s hs hne
    have ht : truthyOptStr orig.token = true := by
      rw [hs]; simpa [truthyOptStr] using hne
    unfold expand_case_merge
    rw [if_pos ht]
    exact hs

/-- Witness for C8: expanding a sparse case whose detail document carries
different identifiers keeps the caller's `case_number` and `token`. -/
theorem expand_case_preserves_identifiers_witness :
    (expand_case_merge origSparseCase parsedDetailCase).case_number
        = some "CT/0020/2020/1"
    ∧ (expand_case_merge origSparseCase parsedDetailCase).token = some "TOKEN123" :=
  ⟨(expand_case_preserves_identifiers origSparseCase parsedDetailCase).1
      "CT/0020/2020/1" rfl (by decide),
   (expand_case_preserves_identifiers origSparseCase parsedDetailCase).2
      "TOKEN123" rfl (by decide)⟩

/-! ## Claim C9 -/

/-- Lemma: one iteration of the format loop returns a date exactly when
`strptime` succeeds on that format and the year is strictly between 1990
and 2030. -/
theorem tryFormat_eq_some_iff (s fmt : String) (d : PDate) :
    tryFormat s fmt = some d ↔ strptimeDate fmt s = some d ∧ yearOk d = true := by
  cases hsd : strptimeDate fmt s with
  | none => simp [tryFormat, hsd]
  | some d' =>
    by_cases hy : yearOk d' = true
    · simp only [tryFormat, hsd]
      rw [if_pos hy]
      constructor
      · intro h; injection h with h; subst h; exact ⟨rfl, hy⟩
      · rintro ⟨h, _⟩; exact h
    · simp only [tryFormat, hsd]
      rw [if_neg hy]
      constructor
      · intro h; exact absurd h (by simp)
      · rintro ⟨h, hy2⟩
        injection h with h
        subst h
        exact absurd hy2 hy

/-- Claim C9: `parse_date` returns a date only when some format of its
ordered list matches (in the `strptime` sense) with a year strictly
between 1990 and 2030; and whenever every format either fails or produces
an out-of-range year, it returns `None` — it is a total function, so it
never raises. -/
theorem parse_date_format_year_policy (s : String) :
    (∀ d, parse_date (some s) = some d →
      ∃ fmt, fmt ∈ date_formats ∧ strptimeDate fmt (pyStrip s) = some d
        ∧ yearOk d = true)
    ∧ ((∀ fmt ∈ date_formats,
          (strptimeDate fmt (pyStrip s)).all (fun d => !(yearOk d)) = true) →
        parse_date (some s) = none) := by
  constructor
  · intro d hd
    simp only [parse_date] at hd
    split at hd
    · exact absurd hd (by simp)
    · obtain ⟨as, fmt, bs, h1, h2, h3⟩ := List.findSome?_eq_some_iff.1 hd
      refine ⟨fmt, by rw [h1]; simp, ?_⟩
      exact (tryFormat_eq_some_iff (pyStrip s) fmt d).1 h2
  · intro hall
    simp only [parse_date]
    split
    · rfl
    · rw [List.findSome?_eq_none_iff]
      intro fmt hmem
      have h := hall fmt hmem
      cases hsd : strptimeDate fmt (pyStrip s) with
      | none => simp [tryFormat, hsd]
      | some d =>
        rw [hsd] at h
        have h2 : (!(yearOk d)) = true := h
        simp only [tryFormat, hsd]
        rw [if_neg (by simpa using h2)]

/-- Witness for C9: `"15-06-2005"` parses (via `%d-%m-%Y`, year in range)
and `"01-01-1980"` is rejected by the year policy. -/
theorem parse_date_format_year_policy_witness :
    (∃ fmt, fmt ∈ date_formats
      ∧ strptimeDate fmt (pyStrip "15-06-2005") = some ⟨2005, 6, 15⟩
      ∧ yearOk ⟨2005, 6, 15⟩ = true)
    ∧ parse_date (some "01-01-1980") = none :=
  ⟨(parse_date_format_year_policy "15-06-2005").1 ⟨2005, 6, 15⟩ (by decide),
   (parse_date_format_year_policy "01-01-1980").2 (by decide)⟩

/-! ## Claim C10 -/

/-- Claim C10: for every accepted HTML document (no `"session expired"`
marker) whose extraction produces no CNR Number value of hyphen-stripped
length exactly 16 (the extraction results are universally quantified, so
this covers every such document), `CaseDetailsParser` construction raises
instead of returning a parser object: the primary `Case` construction
fails CNR validation, and the catch-all fallback `Case` with
`cnr_number="Unknown"` (7 characters) fails the same validation, so the
fallback path always raises as well. -/
theorem details_parser_requires_valid_cnr (html : String)
    (case_details fir_details case_status_d category_details : List (String × String))
    (petitioners respondents : List Party) (hearings : List Hearing)
    (objections : List Objection) (orders : List CourtOrder)
    (hsess : pyContains (pyLower html) "session expired" = false)
    (hcnr : (stripHyphens (pyGetD case_details "CNR Number" "")).length ≠ 16) :
    ∃ msg, CaseDetailsParser_init html case_details fir_details case_status_d
      category_details petitioners respondents hearings objections orders
      = .error msg := by
  unfold CaseDetailsParser_init
  rw [if_neg (by simp [hsess])]
  unfold parse_case_from_extracts
  obtain ⟨m1, hm1⟩ := postInit_error
    (detailsPrimaryCase case_details fir_details case_status_d category_details
      petitioners respondents hearings objections orders) hcnr
  rw [hm1]
  obtain ⟨m2, hm2⟩ := postInit_error detailsFallbackCase (by decide)
  rw [hm2]
  exact ⟨m2, rfl⟩

/-- Witness for C10: empty extraction results (the document carried no
recognizable CNR) make the parser construction raise. -/
theorem details_parser_requires_valid_cnr_witness :
    ∃ msg, CaseDetailsParser_init "<html></html>" [] [] [] [] [] [] [] [] []
      = .error msg :=
  details_parser_requires_valid_cnr "<html></html>" [] [] [] [] [] [] [] [] []
    (by decide) (by decide)

/-! ## Claim C7: helper lemmas on the canonicalization -/

/-- Characters with equal code points are equal. -/
theorem charEq_of_toNat_eq (a b : Char) (h : a.toNat = b.toNat) : a = b := by
  rw [← Char.ofNat_toNat a, ← Char.ofNat_toNat b, h]

/-- The key comparison is total. -/
theorem strLeB_total (l1 l2 : List Char) : strLeB l1 l2 = true ∨ strLeB l2 l1 = true := by
  induction l1 generalizing l2 with
  | nil => left; rfl
  | cons a as ih =>
    cases l2 with
    | nil => right; rfl
    | cons b bs =>
      rcases Nat.lt_trichotomy a.toNat b.toNat with h | h | h
      · left; simp [strLeB, h]
      · have hba : ¬ b.toNat < a.toNat := by omega
        have hab : ¬ a.toNat < b.toNat := by omega
        rcases ih bs with h2 | h2
        · left; simp [strLeB, hab, hba, h2]
        · right; simp [strLeB, hab, hba, h2]
      · right; simp [strLeB, h]

/-- The key comparison is transitive. -/
theorem strLeB_trans (l1 l2 l3 : List Char) (h1 : strLeB l1 l2 = true)
    (h2 : strLeB l2 l3 = true) : strLeB l1 l3 = true := by
  induction l1 generalizing l2 l3 with
  | nil => rfl
  | cons a as ih =>
    cases l2 with
    | nil => simp [strLeB] at h1
    | cons b bs =>
      cases l3 with
      | nil => simp [strLeB] at h2
      | cons c cs =>
        simp only [strLeB] at h1 h2 ⊢
        rcases Nat.lt_trichotomy a.toNat b.toNat with hab | hab | hab
        · rcases Nat.lt_trichotomy b.toNat c.toNat with hbc | hbc | hbc
          · rw [if_pos (by omega)]
          · rw [if_pos (by omega)]
          · rw [if_neg (by omega), if_pos (by omega)] at h2
            exact absurd h2 (by simp)
        · rw [if_neg (by omega), if_neg (by omega)] at h1
          rcases Nat.lt_trichotomy b.toNat c.toNat with hbc | hbc | hbc
          · rw [if_pos (by omega)]
          · rw [if_neg (by omega), if_neg (by omega)] at h2
            rw [if_neg (by omega), if_neg (by omega)]
            exact ih bs cs h1 h2
          · rw [if_neg (by omega), if_pos (by omega)] at h2
            exact absurd h2 (by simp)
        · rw [if_neg (by omega), if_pos (by omega)] at h1
          exact absurd h1 (by simp)

/-- The key comparison is antisymmetric. -/
theorem strLeB_antisymm (l1 l2 : List Char) (h1 : strLeB l1 l2 = true)
    (h2 : strLeB l2 l1 = true) : l1 = l2 := by
  induction l1 generalizing l2 with
  | nil =>
    cases l2 with
    | nil => rfl
    | cons b bs => simp [strLeB] at h2
  | cons a as ih =>
    cases l2 with
    | nil => simp [strLeB] at h1
    | cons b bs =>
      simp only [strLeB] at h1 h2
      rcases Nat.lt_trichotomy a.toNat b.toNat with h | h | h
      · rw [if_neg (by omega), if_pos (by omega)] at h2
        exact absurd h2 (by simp)
      · rw [if_neg (by omega), if_neg (by omega)] at h1
        rw [if_neg (by omega), if_neg (by omega)] at h2
        rw [charEq_of_toNat_eq a b h, ih bs h1 h2]
      · rw [if_neg (by omega), if_pos (by omega)] at h1
        exact absurd h1 (by simp)

/-- Sorting by key is invariant under permutation of the input: two
permuted key lists have the same `sort_keys=True` iteration order. -/
theorem insertionSort_strLe_perm_eq (l1 l2 : List String) (h : l1.Perm l2) :
    List.insertionSort strLe l1 = List.insertionSort strLe l2 := by
  haveI : IsTotal String strLe := ⟨fun a b => strLeB_total a.data b.data⟩
  haveI : IsTrans String strLe := ⟨fun a b c => strLeB_trans a.data b.data c.data⟩
  haveI : IsAntisymm String strLe := ⟨fun a b h1 h2 => by
    cases a; cases b
    exact congrArg String.mk (strLeB_antisymm _ _ h1 h2)⟩
  exact List.eq_of_perm_of_sorted
    ((List.perm_insertionSort _ l1).trans (h.trans (List.perm_insertionSort _ l2).symm))
    (List.sorted_insertionSort _ l1) (List.sorted_insertionSort _ l2)

/-- Unfolding of dictionary lookup on a cons cell. -/
theorem lookupVal_cons (p : String × PyVal) (r : List (String × PyVal)) (k : String) :
    lookupVal (p :: r) k = if p.1 = k then p.2 else lookupVal r k := by
  unfold lookupVal
  by_cases hp : p.1 = k
  · rw [List.find?_cons_of_pos _ (by simp [hp]), if_pos hp]
  · rw [List.find?_cons_of_neg _ (by simp [hp]), if_neg hp]

/-- Dictionary lookup is invariant under permutation when keys are unique
(records model dicts, whose keys are unique). -/
theorem lookupVal_perm : ∀ {r₁ r₂ : List (String × PyVal)}, r₁.Perm r₂ →
    (keyList r₁).Nodup → ∀ k, lookupVal r₁ k = lookupVal r₂ k := by
  intro r₁ r₂ h
  induction h with
  | nil => intro _ k; rfl
  | cons x h ih =>
    intro hnd k
    rw [lookupVal_cons, lookupVal_cons]
    by_cases hx : x.1 = k
    · rw [if_pos hx, if_pos hx]
    · rw [if_neg hx, if_neg hx]
      exact ih (List.Nodup.of_cons hnd) k
  | swap x y l =>
    intro hnd k
    have hxy : y.1 ≠ x.1 := by
      have h1 := (List.nodup_cons.1 hnd).1
      intro hc
      apply h1
      simp only [List.map_cons, List.mem_cons]
      exact Or.inl hc
    rw [lookupVal_cons, lookupVal_cons, lookupVal_cons, lookupVal_cons]
    by_cases hy : y.1 = k <;> by_cases hx : x.1 = k
    · exact absurd (hy.trans hx.symm) hxy
    · rw [if_pos hy, if_neg hx, if_pos hy]
    · rw [if_neg hy, if_pos hx, if_pos hx]
    · rw [if_neg hy, if_neg hx, if_neg hx, if_neg hy]
  | trans h₁ h₂ ih₁ ih₂ =>
    intro hnd k
    have hnd₂ : (keyList _).Nodup :=
      ((h₁.map (fun p : String × PyVal => p.1)).nodup_iff).1 hnd
    exact (ih₁ hnd k).trans (ih₂ hnd₂ k)

/-- Changing a value leaves the key list unchanged. -/
theorem keyList_updateVal (r : List (String × PyVal)) (k : String) (v : PyVal) :
    keyList (updateVal r k v) = keyList r := by
  induction r with
  | nil => rfl
  | cons p rest ih =>
    show ((if p.1 = k then ((p.1, v) : String × PyVal) else p).1)
        :: keyList (updateVal rest k v) = p.1 :: keyList rest
    rw [ih]
    congr 1
    by_cases hp : p.1 = k <;> simp [hp]

/-- Filtering commutes with a value update (both act key-wise). -/
theorem filteredData_updateVal (r : List (String × PyVal)) (k : String) (v : PyVal) :
    filteredData (updateVal r k v) = updateVal (filteredData r) k v := by
  induction r with
  | nil => rfl
  | cons p rest ih =>
    have h1 : ((if p.1 = k then ((p.1, v) : String × PyVal) else p).1) = p.1 := by
      by_cases hp : p.1 = k <;> simp [hp]
    show List.filter (fun q => !volatileFields.contains q.1)
        ((if p.1 = k then ((p.1, v) : String × PyVal) else p) :: updateVal rest k v)
      = updateVal (List.filter (fun q => !volatileFields.contains q.1) (p :: rest)) k v
    rw [List.filter_cons, List.filter_cons, h1]
    cases hB : volatileFields.contains p.1 with
    | true =>
      simp only [Bool.not_true, if_neg (show ¬ (false = true) by simp)]
      exact ih
    | false =>
      simp only [Bool.not_false, if_pos (show true = true from rfl)]
      show (if p.1 = k then ((p.1, v) : String × PyVal) else p)
            :: List.filter (fun q => !volatileFields.contains q.1) (updateVal rest k v)
          = (if p.1 = k then ((p.1, v) : String × PyVal) else p)
            :: updateVal (List.filter (fun q => !volatileFields.contains q.1) rest) k v
      rw [show List.filter (fun q => !volatileFields.contains q.1) (updateVal rest k v)
            = filteredData (updateVal rest k v) from rfl, ih]
      rfl

/-- A key absent from a record makes an update a no-op. -/
theorem updateVal_not_mem (l : List (String × PyVal)) (k : String) (v : PyVal)
    (h : k ∉ keyList l) : updateVal l k v = l := by
  induction l with
  | nil => rfl
  | cons p rest ih =>
    simp only [keyList, List.map_cons, List.mem_cons, not_or] at h
    show (if p.1 = k then ((p.1, v) : String × PyVal) else p) :: updateVal rest k v
        = p :: rest
    rw [if_neg (fun hc => h.1 hc.symm), ih (by simpa [keyList] using h.2)]

/-- Volatile keys never survive the filter. -/
theorem not_mem_keyList_filteredData (r : List (String × PyVal)) (k : String)
    (hk : volatileFields.contains k = true) : k ∉ keyList (filteredData r) := by
  intro hmem
  simp only [keyList, filteredData, List.mem_map, List.mem_filter] at hmem
  obtain ⟨p, ⟨_, hpf⟩, hpk⟩ := hmem
  rw [hpk, hk] at hpf
  exact absurd hpf (by simp)

/-- Updating one key leaves lookups of other keys unchanged. -/
theorem lookupVal_updateVal_ne (l : List (String × PyVal)) (k : String) (v : PyVal)
    (k' : String) (h : k' ≠ k) :
    lookupVal (updateVal l k v) k' = lookupVal l k' := by
  induction l with
  | nil => rfl
  | cons p rest ih =>
    show lookupVal ((if p.1 = k then ((p.1, v) : String × PyVal) else p)
        :: updateVal rest k v) k' = _
    rw [lookupVal_cons, lookupVal_cons]
    have h1 : ((if p.1 = k then ((p.1, v) : String × PyVal) else p).1) = p.1 := by
      by_cases hp : p.1 = k <;> simp [hp]
    rw [h1]
    by_cases hp : p.1 = k'
    · rw [if_pos hp, if_pos hp, if_neg (by rw [hp]; exact h)]
    · rw [if_neg hp, if_neg hp]
      exact ih

/-- Updating a present key makes its lookup return the new value. -/
theorem lookupVal_updateVal_eq (l : List (String × PyVal)) (k : String) (v : PyVal)
    (h : k ∈ keyList l) : lookupVal (updateVal l k v) k = v := by
  induction l with
  | nil => exact absurd h (by simp [keyList])
  | cons p rest ih =>
    show lookupVal ((if p.1 = k then ((p.1, v) : String × PyVal) else p)
        :: updateVal rest k v) k = v
    by_cases hp : p.1 = k
    · rw [if_pos hp, lookupVal_cons, if_pos hp]
    · rw [if_neg hp, lookupVal_cons, if_neg hp]
      apply ih
      simp only [keyList, List.map_cons, List.mem_cons] at h
      exact h.resolve_left (fun hc => hp hc.symm)

/-- Filtering volatile keys leaves lookups of non-volatile keys unchanged. -/
theorem lookupVal_filteredData (r : List (String × PyVal)) (k : String)
    (hk : volatileFields.contains k = false) :
    lookupVal (filteredData r) k = lookupVal r k := by
  induction r with
  | nil => rfl
  | cons p rest ih =>
    show lookupVal (List.filter (fun q => !volatileFields.contains q.1) (p :: rest)) k
        = lookupVal (p :: rest) k
    rw [List.filter_cons]
    cases hB : volatileFields.contains p.1 with
    | true =>
      have hp : p.1 ≠ k := fun hc => by rw [hc, hk] at hB; exact absurd hB (by simp)
      simp only [Bool.not_true, if_neg (show ¬ (false = true) by simp)]
      rw [lookupVal_cons, if_neg hp]
      exact ih
    | false =>
      simp only [Bool.not_false, if_true]
      rw [lookupVal_cons, lookupVal_cons]
      by_cases hp : p.1 = k
      · rw [if_pos hp, if_pos hp]
      · rw [if_neg hp, if_neg hp]
        exact ih

/-- A non-volatile key of the record survives the filter. -/
theorem mem_keyList_filteredData (r : List (String × PyVal)) (k : String)
    (hk : volatileFields.contains k = false) (h : k ∈ keyList r) :
    k ∈ keyList (filteredData r) := by
  simp only [keyList, List.mem_map] at h
  obtain ⟨p, hp, hpk⟩ := h
  simp only [keyList, filteredData, List.mem_map]
  refine ⟨p, List.mem_filter.2 ⟨hp, ?_⟩, hpk⟩
  rw [show p.1 = k from hpk, hk]
  rfl

/-- Unfolding of the separated join on a cons cell. -/
theorem joinSepL_cons (sep : List Char) (x : List Char) (B : List (List Char)) :
    joinSepL sep (x :: B) = x ++ sepTail sep B := by
  cases B with
  | nil => exact (List.append_nil x).symm
  | cons b bs =>
    show x ++ sep ++ joinSepL sep (b :: bs) = x ++ (sep ++ joinSepL sep (b :: bs))
    rw [List.append_assoc]

/-- Splitting a separated join at a distinguished element. -/
theorem joinSepL_split (sep : List Char) (A : List (List Char)) (e : List Char)
    (B : List (List Char)) :
    joinSepL sep (A ++ e :: B) = joinPre sep A ++ (e ++ sepTail sep B) := by
  induction A with
  | nil =>
    show joinSepL sep (e :: B) = joinPre sep [] ++ (e ++ sepTail sep B)
    rw [joinSepL_cons]
    rfl
  | cons a A' ih =>
    show joinSepL sep (a :: (A' ++ e :: B)) = joinPre sep (a :: A') ++ (e ++ sepTail sep B)
    have hstep : joinSepL sep (a :: (A' ++ e :: B))
        = a ++ sep ++ joinSepL sep (A' ++ e :: B) := by
      cases hA : A' ++ e :: B with
      | nil => exact absurd hA (by simp)
      | cons y ys => rfl
    rw [hstep, ih]
    show a ++ sep ++ (joinPre sep A' ++ (e ++ sepTail sep B))
        = (a ++ sep ++ joinPre sep A') ++ (e ++ sepTail sep B)
    exact (List.append_assoc (a ++ sep) (joinPre sep A') (e ++ sepTail sep B)).symm

/-- The canonical serialization is invariant under reordering of a
record's fields (keys unique, as in a Python dict). -/
theorem case_str_eq_of_perm (r₁ r₂ : List (String × PyVal)) (h : r₁.Perm r₂)
    (hnd : (keyList r₁).Nodup) : case_str r₁ = case_str r₂ := by
  have hfp : (filteredData r₁).Perm (filteredData r₂) := h.filter _
  have hndf : (keyList (filteredData r₁)).Nodup :=
    List.Nodup.sublist
      (show List.Sublist (keyList (filteredData r₁)) (keyList r₁) from
        (List.filter_sublist r₁).map (fun p : String × PyVal => p.1)) hnd
  have hkeys : sortedKeys (filteredData r₁) = sortedKeys (filteredData r₂) :=
    insertionSort_strLe_perm_eq _ _ (hfp.map (fun p : String × PyVal => p.1))
  unfold case_str
  rw [hkeys]
  have hmap : List.map (entryChars (filteredData r₁)) (sortedKeys (filteredData r₂))
      = List.map (entryChars (filteredData r₂)) (sortedKeys (filteredData r₂)) :=
    List.map_congr_left (fun k _ => by
      unfold entryChars
      rw [lookupVal_perm hfp hndf k])
  rw [hmap]

/-- The canonical serialization ignores changes to volatile fields. -/
theorem case_str_volatile (r : List (String × PyVal)) (k : String) (v : PyVal)
    (hk : volatileFields.contains k = true) :
    case_str (updateVal r k v) = case_str r := by
  unfold case_str
  rw [filteredData_updateVal, updateVal_not_mem _ _ _ (not_mem_keyList_filteredData r k hk)]

/-- Changing a non-volatile field to a value with a different
serialization changes the canonical serialization (the digest input). -/
theorem case_str_changes (r : List (String × PyVal)) (k : String) (v' : PyVal)
    (hk : volatileFields.contains k = false) (hnd : (keyList r).Nodup)
    (hmem : k ∈ keyList r) (hdiff : pyDumps v' ≠ pyDumps (lookupVal r k)) :
    case_str (updateVal r k v') ≠ case_str r := by
  intro hcontra
  have hupd : filteredData (updateVal r k v') = updateVal (filteredData r) k v' :=
    filteredData_updateVal r k v'
  have hndf : (keyList (filteredData r)).Nodup :=
    List.Nodup.sublist
      (show List.Sublist (keyList (filteredData r)) (keyList r) from
        (List.filter_sublist r).map (fun p : String × PyVal => p.1)) hnd
  have hmemf : k ∈ keyList (filteredData r) := mem_keyList_filteredData r k hk hmem
  have hsk : sortedKeys (updateVal (filteredData r) k v') = sortedKeys (filteredData r) := by
    unfold sortedKeys
    rw [keyList_updateVal]
  have hmemsk : k ∈ sortedKeys (filteredData r) :=
    (List.perm_insertionSort strLe (keyList (filteredData r))).mem_iff.2 hmemf
  have hndsk : (sortedKeys (filteredData r)).Nodup :=
    ((List.perm_insertionSort strLe (keyList (filteredData r))).nodup_iff).2 hndf
  obtain ⟨pre, post, hdec⟩ := List.append_of_mem hmemsk
  rw [hdec] at hndsk
  have hsplit := List.nodup_append.1 hndsk
  have hkpre : ∀ k' ∈ pre, k' ≠ k := fun k' hk' hc =>
    hsplit.2.2 hk' (show k' ∈ k :: post by rw [hc]; exact List.mem_cons_self _ _)
  have hkpost : ∀ k' ∈ post, k' ≠ k := by
    intro k' hk' hc
    have h1 := (List.nodup_cons.1 hsplit.2.1).1
    rw [hc] at hk'
    exact h1 hk'
  unfold case_str at hcontra
  rw [hupd, hsk, hdec, List.map_append, List.map_cons, List.map_append,
    List.map_cons] at hcontra
  have hpre : pre.map (entryChars (updateVal (filteredData r) k v'))
      = pre.map (entryChars (filteredData r)) :=
    List.map_congr_left (fun k' hk' => by
      unfold entryChars
      rw [lookupVal_updateVal_ne _ _ _ _ (hkpre k' hk')])
  have hpost : post.map (entryChars (updateVal (filteredData r) k v'))
      = post.map (entryChars (filteredData r)) :=
    List.map_congr_left (fun k' hk' => by
      unfold entryChars
      rw [lookupVal_updateVal_ne _ _ _ _ (hkpost k' hk')])
  have hE' : entryChars (updateVal (filteredData r) k v') k
      = dumpStrChars k ++ colonSp ++ pyDumps v' := by
    unfold entryChars
    rw [lookupVal_updateVal_eq _ _ _ hmemf]
  have hE : entryChars (filteredData r) k
      = dumpStrChars k ++ colonSp ++ pyDumps (lookupVal r k) := by
    unfold entryChars
    rw [lookupVal_filteredData r k hk]
  rw [hpre, hpost, hE', hE, joinSepL_split, joinSepL_split] at hcontra
  simp only [List.cons_append, List.append_assoc, List.cons.injEq, true_and] at hcontra
  have h4 := List.append_cancel_left
    (List.append_cancel_left (List.append_cancel_left hcontra))
  exact hdiff (List.append_cancel_right h4)

/-! ## Claim C7 -/

/-- Claim C7, counterexample: the record field value `date(2020, 1, 1)`
and its ISO string `"2020-01-01"` are different values, yet the two
records carrying them in the non-volatile field `filing_date` have equal
digests — `default=str` serializes both identically, so changing the
value of a non-volatile field does not always change the digest. -/
theorem case_hash_nonvolatile_collision :
    PyVal.vDate 2020 1 1 ≠ PyVal.vStr "2020-01-01"
    ∧ calculate_case_hash hashRecordDate = calculate_case_hash hashRecordStr :=
  ⟨fun h => PyVal.noConfusion h,
   congrArg (fun l => md5hexBytes (utf8Bytes l))
     (show case_str hashRecordDate = case_str hashRecordStr by decide)⟩

/-- Claim C7 (amended: the third property holds at the level the pipeline
determines — changing the value of a non-volatile field changes the digest
input, the canonical serialization `case_str`, whenever the new value's
serialization differs from the old one's; values that serialize
identically under the `default=str` fallback, such as a date and its ISO
string, leave the digest unchanged): fingerprints are equal for records
with the same fields in a different order, and invariant under changes to
the volatile fields `last_updated` / `scraped_at`. -/
theorem case_hash_change_detection :
    (∀ r₁ r₂ : List (String × PyVal), r₁.Perm r₂ → (keyList r₁).Nodup →
      calculate_case_hash r₁ = calculate_case_hash r₂)
    ∧ (∀ (r : List (String × PyVal)) (k : String) (v : PyVal),
        volatileFields.contains k = true →
        calculate_case_hash (updateVal r k v) = calculate_case_hash r)
    ∧ (∀ (r : List (String × PyVal)) (k : String) (v' : PyVal),
        volatileFields.contains k = false → (keyList r).Nodup → k ∈ keyList r →
        pyDumps v' ≠ pyDumps (lookupVal r k) →
        case_str (updateVal r k v') ≠ case_str r) :=
  ⟨fun r₁ r₂ h hnd => congrArg (fun l => md5hexBytes (utf8Bytes l))
      (case_str_eq_of_perm r₁ r₂ h hnd),
   fun r k v hk => congrArg (fun l => md5hexBytes (utf8Bytes l))
      (case_str_volatile r k v hk),
   case_str_changes⟩

/-- Witness for C7 at concrete records: reordering two fields keeps the
digest, changing `last_updated` keeps the digest, and changing a
non-volatile field value from 1 to 2 changes the digest input. -/
theorem case_hash_change_detection_witness :
    calculate_case_hash [("a", .vInt 1), ("b", .vNull)]
        = calculate_case_hash [("b", .vNull), ("a", .vInt 1)]
    ∧ calculate_case_hash
          (updateVal [("last_updated", .vStr "t"), ("a", .vInt 1)]
            "last_updated" (.vStr "u"))
        = calculate_case_hash [("last_updated", .vStr "t"), ("a", .vInt 1)]
    ∧ case_str (updateVal [("a", .vInt 1)] "a" (.vInt 2)) ≠ case_str [("a", .vInt 1)] :=
  ⟨case_hash_change_detection.1 _ _ (List.Perm.swap _ _ _) (by decide),
   case_hash_change_detection.2.1 _ "last_updated" _ (by decide),
   case_hash_change_detection.2.2 _ "a" _ (by decide) (by decide) (by decide) (by decide)⟩

end ECourt
